import Mathlib

/-!
Shallow embedding of the message-generation and delivery loop of
`src/producers/json_producer_badeniyan.py` (repository
Queensdelight/buzzline-03-badeniyan), together with theorems settling the
specification claims about it.

The embedding models:
* JSON values (`Json`) with Python truthiness (`Json.truthy`);
* `get_custom_message` (lines 59-77), parameterised by a JSON-parse
  function standing for `json.loads`;
* the source-branch selection in `main` (lines 174-183);
* the file-backed generator `generate_messages` (lines 100-136) as a
  per-cycle step function (`generate_cycle`) and a cycle-indexed trace
  (`generate_messages_trace`);
* the literal generator `generate_custom_message` (lines 139-152) as a
  yield trace;
* the delivery loop of `main` (lines 203-215) as a fuel-indexed runner
  (`run_loop_from`) over an abstract stream of per-iteration events.
-/

namespace BuzzlineProducer

/-- JSON values, as produced by Python's `json.loads`: null, booleans,
numbers, strings, arrays, and string-keyed objects.  Numbers are modelled
as integers; the claims under study never depend on fractional values. -/
inductive Json where
  | null : Json
  | bool (b : Bool) : Json
  | num (n : Int) : Json
  | str (s : String) : Json
  | arr (xs : List Json) : Json
  | obj (kvs : List (String × Json)) : Json

/-- Python truthiness of a JSON value (`if custom_msg:` in `main`):
`None`/`null`, `False`, `0`, `""`, `[]` and `{}` are falsy, everything
else is truthy. -/
def Json.truthy : Json → Bool
  | .null => false
  | .bool b => b
  | .num n => n != 0
  | .str s => s != ""
  | .arr xs => !xs.isEmpty
  | .obj kvs => !kvs.isEmpty

/-- Whether a JSON value is an object (a Python `dict` / mapping). -/
def Json.isObj : Json → Bool
  | .obj _ => true
  | _ => false

/-- Embedding of `get_custom_message` (lines 59-77).  The environment
variable `CUSTOM_MESSAGE` is `env : Option String` (`none` when unset);
`parse` stands for `json.loads`, returning `none` exactly when the
library would raise `json.JSONDecodeError`.  A set, non-empty string is
parsed; on parse success the parsed value is returned as-is, on parse
failure the raw string is wrapped as `{"message": s}`.  An unset or
empty (falsy) string yields `none` (Python `None`). -/
def get_custom_message (parse : String → Option Json) (env : Option String) :
    Option Json :=
  match env with
  | some s =>
    if s != "" then
      match parse s with
      | some j => some j
      | none => some (.obj [("message", .str s)])
    else none
  | none => none

/-- The two message-source branches of `main` (lines 174-183). -/
inductive SourceBranch where
  | literal (msg : Json) : SourceBranch
  | file : SourceBranch

/-- Embedding of the branch decision in `main` (lines 174-183):
`custom_msg = get_custom_message(); if custom_msg: ... else: ...`.
The literal branch is taken exactly when the resolved custom message is
present and truthy; otherwise the file branch is taken. -/
def choose_branch (parse : String → Option Json) (env : Option String) :
    SourceBranch :=
  match get_custom_message parse env with
  | some m => if m.truthy then .literal m else .file
  | none => .file

/-- Whether the `DATA_FILE.exists()` check in `main` (lines 180-182) runs:
it is inside the `else` branch, so it runs exactly when the file branch
is chosen. -/
def performs_existence_check (parse : String → Option Json)
    (env : Option String) : Bool :=
  match choose_branch parse env with
  | .file => true
  | .literal _ => false

/-- Outcome of one attempt to open and `json.load` the source file inside
`generate_messages`: success with the parsed value, `FileNotFoundError`,
`json.JSONDecodeError`, or any other exception raised during the `try`
block. -/
inductive ReadResult where
  | ok (j : Json) : ReadResult
  | notFound : ReadResult
  | parseError : ReadResult
  | otherError : ReadResult

/-- Outcome of one iteration of the `while True` loop of
`generate_messages` (lines 110-136): either the iteration yields a list
of records and loops again, or the process exits with a code. -/
inductive CycleOutcome where
  | yields (records : List Json) : CycleOutcome
  | exits (code : Nat) : CycleOutcome

/-- Embedding of one iteration of the `while True` body of
`generate_messages` (lines 110-136).  On a successful read of a list the
elements are yielded in order; a non-list value raises `ValueError`,
which is caught by `except Exception` and exits with code 3;
`FileNotFoundError` exits 1; `json.JSONDecodeError` exits 2; any other
exception exits 3. -/
def generate_cycle : ReadResult → CycleOutcome
  | .ok j =>
    match j with
    | .arr xs => .yields xs
    | _ => .exits 3
  | .notFound => .exits 1
  | .parseError => .exits 2
  | .otherError => .exits 3

/-- State of the `generate_messages` generator after some number of
while-loop iterations: still running having yielded `ys` so far, or
exited with a code after yielding `ys`. -/
inductive GenTrace where
  | running (ys : List Json) : GenTrace
  | exited (ys : List Json) (code : Nat) : GenTrace

/-- The records yielded so far in a trace state. -/
def GenTrace.yielded : GenTrace → List Json
  | .running ys => ys
  | .exited ys _ => ys

/-- Trace of `generate_messages` through its first `k` while-iterations.
`read i` is the outcome of the file open/parse performed at cycle `i`:
the file is re-read at every cycle boundary, so each cycle consumes a
fresh read outcome.  Once exited, the state is absorbing. -/
def generate_messages_trace (read : Nat → ReadResult) : Nat → GenTrace
  | 0 => .running []
  | k + 1 =>
    match generate_messages_trace read k with
    | .running ys =>
      match generate_cycle (read k) with
      | .yields rs => .running (ys ++ rs)
      | .exits c => .exited ys c
    | .exited ys c => .exited ys c

/-- Concatenation of `k` copies of `arr`: the records yielded by `k`
fatal-free cycles over a file whose content stays `arr`. -/
def repeatConcat (arr : List Json) : Nat → List Json
  | 0 => []
  | k + 1 => repeatConcat arr k ++ arr

/-- Trace of `generate_custom_message` (lines 139-152): the list of
values yielded by the first `k` "next" calls.  The body is
`while True: yield custom_msg`, so each call appends the same record;
there is no read and no exit path. -/
def generate_custom_message_trace (custom_msg : Json) : Nat → List Json
  | 0 => []
  | k + 1 => generate_custom_message_trace custom_msg k ++ [custom_msg]

/-- Per-iteration event of the delivery loop in `main` (lines 203-215):
the iteration completes normally (pull, send, log, sleep), a
`KeyboardInterrupt` is observed, `producer.send` raises an ordinary
exception, or the generator raises `SystemExit code` (from `sys.exit`
inside `generate_messages`). -/
inductive LoopEvent where
  | ok : LoopEvent
  | interrupt : LoopEvent
  | sendError : LoopEvent
  | genExit (code : Nat) : LoopEvent
deriving DecidableEq

/-- Observable outcome of the delivery loop: the values successfully
sent, how many times `producer.close()` ran, and the process exit
status. -/
structure LoopResult where
  sent : List Json
  closes : Nat
  exitCode : Nat

/-- Embedding of the `try/except/finally` delivery loop of `main`
(lines 203-215), run from iteration `i` with the given fuel; `none`
means the loop is still running after consuming all fuel.  `gen n` is
the record pulled on iteration `n`.  A normal iteration sends `gen i`
and continues.  `KeyboardInterrupt` and ordinary send exceptions are
caught, `producer.close()` runs in `finally`, and the process falls
through to a normal exit (status 0).  A `SystemExit c` from the
generator is not caught by `except Exception`, but `finally` still runs
`producer.close()` before the process exits with code `c`. -/
def run_loop_from (gen : Nat → Json) (ev : Nat → LoopEvent) (i : Nat) :
    Nat → Option LoopResult
  | 0 => none
  | fuel + 1 =>
    match ev i with
    | .ok =>
      match run_loop_from gen ev (i + 1) fuel with
      | some r => some ⟨gen i :: r.sent, r.closes, r.exitCode⟩
      | none => none
    | .interrupt => some ⟨[], 1, 0⟩
    | .sendError => some ⟨[], 1, 0⟩
    | .genExit c => some ⟨[], 1, c⟩

/-- Result contributed by the first non-`ok` event: what the loop
records from the iteration that stops it (nothing sent on that
iteration, one close, and the resulting exit status). -/
def stop_result : LoopEvent → Option LoopResult
  | .ok => none
  | .interrupt => some ⟨[], 1, 0⟩
  | .sendError => some ⟨[], 1, 0⟩
  | .genExit c => some ⟨[], 1, c⟩

/-- Exit code in `main` when `create_kafka_producer` returns a falsy
producer (lines 189-191): `sys.exit(3)`. -/
def producer_create_fail_exit : Nat := 3

/-- Exit code in `main` when `create_kafka_topic` raises (lines
194-199): `sys.exit(1)`. -/
def topic_create_fail_exit : Nat := 1

/-- Models the Python standard library `json.loads` on the handful of
literal strings used as concrete inputs in this development; all other
strings are treated as parse failures, matching `json.loads` on the
particular strings below. -/
def json_loads_model : String → Option Json
  | "0" => some (.num 0)
  | "false" => some (.bool false)
  | "null" => some .null
  | "[]" => some (.arr [])
  | "\"\"" => some (.str "")
  | "5" => some (.num 5)
  | "[1, 2]" => some (.arr [.num 1, .num 2])
  | "\"hi\"" => some (.str "hi")
  | "\x7b\"a\": 1\x7d" => some (.obj [("a", .num 1)])
  | _ => none

/-- Exit code recorded in a generator trace, if the generator has
exited. -/
def GenTrace.exitCode? : GenTrace → Option Nat
  | .running _ => none
  | .exited _ c => some c

/-- Concrete two-record sample array (the shape of `data/buzz.json`
entries), used as a witness input. -/
def sampleArr : List Json :=
  [.obj [("message", .str "a")], .obj [("message", .str "b")]]

/-! ### Helper lemmas -/

theorem repeatConcat_length (arr : List Json) (k : Nat) :
    (repeatConcat arr k).length = k * arr.length := by
  induction k with
  | zero => simp [repeatConcat]
  | succ k ih => simp only [repeatConcat, List.length_append, ih, Nat.succ_mul]

theorem repeatConcat_getElem? (arr : List Json) :
    ∀ (k n : Nat), n < k * arr.length →
      (repeatConcat arr k)[n]? = arr[n % arr.length]? := by
  intro k
  induction k with
  | zero => intro n hn; simp at hn
  | succ k ih =>
    intro n hn
    have h1 : (k + 1) * arr.length = k * arr.length + arr.length :=
      Nat.succ_mul k arr.length
    by_cases hlt : n < k * arr.length
    · simp only [repeatConcat]
      rw [List.getElem?_append, repeatConcat_length, if_pos hlt]
      exact ih n hlt
    · have hge : k * arr.length ≤ n := Nat.le_of_not_lt hlt
      have hsub : n - k * arr.length < arr.length := by omega
      simp only [repeatConcat]
      rw [List.getElem?_append, repeatConcat_length, if_neg hlt]
      have hmod : n % arr.length = n - k * arr.length := by
        conv_lhs => rw [← Nat.sub_add_cancel hge]
        rw [Nat.add_mul_mod_self_right (n - k * arr.length) k arr.length]
        exact Nat.mod_eq_of_lt hsub
      rw [hmod]

theorem generate_messages_trace_const (arr : List Json) (k : Nat) :
    generate_messages_trace (fun _ => ReadResult.ok (.arr arr)) k =
      GenTrace.running (repeatConcat arr k) := by
  induction k with
  | zero => rfl
  | succ k ih =>
    simp only [generate_messages_trace, ih]
    rfl

theorem trace_running_of_ok (read : Nat → ReadResult) (k : Nat)
    (hok : ∀ i, i < k → ∃ xs, read i = ReadResult.ok (.arr xs)) :
    ∃ ys, generate_messages_trace read k = GenTrace.running ys := by
  induction k with
  | zero => exact ⟨[], rfl⟩
  | succ k ih =>
    obtain ⟨ys, hys⟩ := ih (fun i hi => hok i (Nat.lt_succ_of_lt hi))
    obtain ⟨xs, hxs⟩ := hok k (Nat.lt_succ_self k)
    refine ⟨ys ++ xs, ?_⟩
    simp only [generate_messages_trace, hys, hxs]
    rfl

theorem generate_custom_message_trace_eq (R : Json) (k : Nat) :
    generate_custom_message_trace R k = List.replicate k R := by
  induction k with
  | zero => rfl
  | succ k ih =>
    simp only [generate_custom_message_trace, ih]
    rw [List.replicate_succ' k R]

theorem run_loop_from_stop (gen : Nat → Json) (ev : Nat → LoopEvent)
    (cl ex : Nat) :
    ∀ (N i fuel : Nat), (∀ j, j < N → ev (i + j) = .ok) →
      stop_result (ev (i + N)) = some ⟨[], cl, ex⟩ → N < fuel →
      run_loop_from gen ev i fuel =
        some ⟨(List.range' i N).map gen, cl, ex⟩ := by
  intro N
  induction N with
  | zero =>
    intro i fuel _ hstop hfuel
    obtain ⟨f, rfl⟩ : ∃ f, fuel = f + 1 := ⟨fuel - 1, by omega⟩
    rw [Nat.add_zero] at hstop
    rcases hev : ev i with _ | _ | _ | c <;> rw [hev] at hstop <;>
        simp only [stop_result, Option.some.injEq, LoopResult.mk.injEq,
          true_and] at hstop
    · exact Option.noConfusion hstop
    · obtain ⟨hcl, hex⟩ := hstop
      subst hcl; subst hex
      simp only [run_loop_from, hev]
      rfl
    · obtain ⟨hcl, hex⟩ := hstop
      subst hcl; subst hex
      simp only [run_loop_from, hev]
      rfl
    · obtain ⟨hcl, hex⟩ := hstop
      subst hcl; subst hex
      simp only [run_loop_from, hev]
      rfl
  | succ N ih =>
    intro i fuel hok hstop hfuel
    obtain ⟨f, rfl⟩ : ∃ f, fuel = f + 1 := ⟨fuel - 1, by omega⟩
    have hev0 : ev i = .ok := by
      have h := hok 0 (Nat.succ_pos N)
      rwa [Nat.add_zero] at h
    have hrec := ih (i + 1) f
      (fun j hj => by
        have h := hok (j + 1) (Nat.succ_lt_succ hj)
        rwa [show i + (j + 1) = i + 1 + j by omega] at h)
      (by rwa [show i + 1 + N = i + (N + 1) by omega])
      (by omega)
    simp only [run_loop_from, hev0, hrec]
    rw [List.range'_succ i N 1, List.map_cons]

/-! ### Claim theorems -/

/-- C1: For every source file whose content is a valid non-empty JSON array
of objects, `generate_messages` yields records cyclically in the file's
original order indefinitely: after `k` read-cycles the generator is still
running (no fatal path taken), having yielded exactly `k` concatenated
copies of the array in order, and the `n`-th record produced equals
`array[n mod len(array)]` — no reordering, deduplication, or skipping
within a pass. -/
theorem C1_file_sequencer_cyclic (arr : List Json) (hne : arr ≠ [])
    (hobj : ∀ x ∈ arr, x.isObj = true) (k n : Nat)
    (hn : n < k * arr.length) :
    generate_messages_trace (fun _ => ReadResult.ok (.arr arr)) k =
      GenTrace.running (repeatConcat arr k) ∧
    (generate_messages_trace
        (fun _ => ReadResult.ok (.arr arr)) k).yielded[n]? =
      arr[n % arr.length]? := by
  refine ⟨generate_messages_trace_const arr k, ?_⟩
  rw [generate_messages_trace_const arr k]
  exact repeatConcat_getElem? arr k n hn

/-- Witness for C1 at a concrete two-record array, three cycles, record
index 4 (which cycles back to index 0). -/
theorem C1_file_sequencer_cyclic_witness :
    generate_messages_trace (fun _ => ReadResult.ok (.arr sampleArr)) 3 =
      GenTrace.running (repeatConcat sampleArr 3) ∧
    (generate_messages_trace
        (fun _ => ReadResult.ok (.arr sampleArr)) 3).yielded[4]? =
      sampleArr[4 % sampleArr.length]? :=
  C1_file_sequencer_cyclic sampleArr (by simp [sampleArr])
    (by intro x hx
        simp only [sampleArr, List.mem_cons, List.not_mem_nil, or_false] at hx
        rcases hx with h | h <;> subst h <;> rfl)
    3 4 (by decide)

/-- C2: During file-source message generation, if the generator has
survived `k` good cycles and the read at cycle `k` fails, then a missing
source file exits the process with code 1, invalid JSON syntax with code
2, and any other unexpected error with code 3. -/
theorem C2_fatal_exit_codes (read : Nat → ReadResult) (k : Nat)
    (hok : ∀ i, i < k → ∃ xs, read i = ReadResult.ok (.arr xs)) :
    (read k = .notFound →
      (generate_messages_trace read (k + 1)).exitCode? = some 1) ∧
    (read k = .parseError →
      (generate_messages_trace read (k + 1)).exitCode? = some 2) ∧
    (read k = .otherError →
      (generate_messages_trace read (k + 1)).exitCode? = some 3) := by
  obtain ⟨ys, hys⟩ := trace_running_of_ok read k hok
  refine ⟨fun h => ?_, fun h => ?_, fun h => ?_⟩ <;>
    simp only [generate_messages_trace, hys, h] <;> rfl

/-- Witness for C2: a file missing at the very first read exits with
code 1. -/
theorem C2_fatal_exit_codes_witness :
    (generate_messages_trace (fun _ => ReadResult.notFound) 1).exitCode? =
      some 1 :=
  (C2_fatal_exit_codes (fun _ => ReadResult.notFound) 0
    (fun i hi => absurd hi (Nat.not_lt_zero i))).1 rfl

/-- C3 counterexample: the exit codes are NOT mutually distinct as the
claim states.  A wrongly-shaped (non-array) source exits with code 3,
the same code as an unexpected error; producer-client creation failure
also exits with code 3, and topic-creation failure exits with code 1,
the same code as a missing source file. -/
theorem C3_exit_codes_counterexample :
    generate_cycle (.ok (.obj [("not", .str "a list")])) = .exits 3 ∧
    generate_cycle .otherError = .exits 3 ∧
    producer_create_fail_exit = 3 ∧
    generate_cycle .notFound = .exits 1 ∧
    topic_create_fail_exit = 1 :=
  ⟨rfl, rfl, rfl, rfl, rfl⟩

/-- C3 amended: the codes for missing file (1), malformed JSON syntax
(2) and unexpected error (3) are mutually distinct, but a non-array
top-level value exits with code 3 — identical to the unexpected-error
code — and the bootstrap codes are not separate: producer-client
creation failure exits with code 3 and topic-creation failure with code
1, coinciding with source-file error codes. -/
theorem C3_exit_codes_amended :
    generate_cycle .notFound = .exits 1 ∧
    generate_cycle .parseError = .exits 2 ∧
    generate_cycle .otherError = .exits 3 ∧
    ((1 : Nat) ≠ 2 ∧ (1 : Nat) ≠ 3 ∧ (2 : Nat) ≠ 3) ∧
    generate_cycle (.ok (.obj [("not", .str "a list")])) = .exits 3 ∧
    producer_create_fail_exit = 3 ∧
    topic_create_fail_exit = 1 :=
  ⟨rfl, rfl, rfl, ⟨by decide, by decide, by decide⟩, rfl, rfl, rfl⟩

/-- C4 counterexample: for the well-formed file source `[]` (an empty
JSON array), no "next" call ever produces a record — the generator
re-reads the file forever without yielding, so "always eventually
produces a Record" fails on the empty array. -/
theorem C4_empty_array_counterexample :
    ¬ ∃ k, 1 ≤ ((generate_messages_trace
      (fun _ => ReadResult.ok (.arr ([] : List Json))) k).yielded).length := by
  rintro ⟨k, hk⟩
  rw [generate_messages_trace_const ([] : List Json) k] at hk
  simp only [GenTrace.yielded, repeatConcat_length, List.length_nil,
    Nat.mul_zero] at hk
  exact Nat.not_succ_le_zero 0 hk

/-- C4 amended: for every readable well-formed file source that is a
NON-EMPTY parseable JSON array, each "next" call eventually produces a
Record and the generator never exits (never signals end-of-sequence nor
takes a fatal path); for the empty array the generator instead loops
forever producing nothing. -/
theorem C4_amended_eventual_yield (arr : List Json) (hne : arr ≠ [])
    (n : Nat) :
    ∃ k ys, generate_messages_trace (fun _ => ReadResult.ok (.arr arr)) k =
      GenTrace.running ys ∧ n < ys.length := by
  refine ⟨n + 1, repeatConcat arr (n + 1),
    generate_messages_trace_const arr (n + 1), ?_⟩
  rw [repeatConcat_length]
  have hpos : 0 < arr.length := List.length_pos.mpr hne
  have h2 : (n + 1) * 1 ≤ (n + 1) * arr.length :=
    Nat.mul_le_mul_left (n + 1) hpos
  omega

/-- Witness for the amended C4 at the one-record array `[null]` and call
index 2. -/
theorem C4_amended_eventual_yield_witness :
    ∃ k ys, generate_messages_trace
      (fun _ => ReadResult.ok (.arr [Json.null])) k =
      GenTrace.running ys ∧ 2 < ys.length :=
  C4_amended_eventual_yield [Json.null] (by simp) 2

/-- C5 counterexample: the configuration string `"0"` is non-empty, yet
the producer does NOT select the literal branch: `get_custom_message`
parses it to the JSON number 0, which is falsy, so `main` falls through
to the file branch and performs the source-file existence check. -/
theorem C5_branch_counterexample :
    ("0" : String) ≠ "" ∧
    choose_branch json_loads_model (some "0") = SourceBranch.file ∧
    performs_existence_check json_loads_model (some "0") = true :=
  ⟨by decide, rfl, rfl⟩

/-- C5 amended: for every non-empty literal-message configuration string,
the producer selects the literal branch — bypassing the source-file
existence check — exactly when the resolved custom message is truthy in
Python's sense; a non-empty string whose resolved value is falsy (such
as `"0"`, `"false"`, `"null"`, `"[]"` or `"\"\""`) instead falls through
to the file branch and performs the existence check. -/
theorem C5_branch_amended (parse : String → Option Json) (s : String)
    (j : Json) (h : s ≠ "")
    (hres : get_custom_message parse (some s) = some j) :
    (j.truthy = true →
      choose_branch parse (some s) = SourceBranch.literal j ∧
      performs_existence_check parse (some s) = false) ∧
    (j.truthy = false →
      choose_branch parse (some s) = SourceBranch.file ∧
      performs_existence_check parse (some s) = true) := by
  constructor
  · intro ht
    have hb : choose_branch parse (some s) = SourceBranch.literal j := by
      simp only [choose_branch, hres, ht, if_true]
    exact ⟨hb, by simp only [performs_existence_check, hb]⟩
  · intro ht
    have hb : choose_branch parse (some s) = SourceBranch.file := by
      simp only [choose_branch, hres, ht]
      rfl
    exact ⟨hb, by simp only [performs_existence_check, hb]⟩

/-- Witness for the amended C5 at the truthy JSON-object string
`"\x7b\"a\": 1\x7d"`. -/
theorem C5_branch_amended_witness :
    ((Json.obj [("a", Json.num 1)]).truthy = true →
      choose_branch json_loads_model (some "\x7b\"a\": 1\x7d") =
        SourceBranch.literal (Json.obj [("a", Json.num 1)]) ∧
      performs_existence_check json_loads_model (some "\x7b\"a\": 1\x7d") = false) ∧
    ((Json.obj [("a", Json.num 1)]).truthy = false →
      choose_branch json_loads_model (some "\x7b\"a\": 1\x7d") =
        SourceBranch.file ∧
      performs_existence_check json_loads_model (some "\x7b\"a\": 1\x7d") = true) :=
  C5_branch_amended json_loads_model "\x7b\"a\": 1\x7d" (Json.obj [("a", Json.num 1)])
    (by decide) rfl

/-- C6: if the delivery loop iterations up to `N` complete normally and at
iteration `N` an interrupt is observed or the send raises a non-fatal
exception, then no further iteration runs — exactly the first `N` records
are sent — `producer.close()` runs exactly once, and the process
terminates with the successful status 0. -/
theorem C6_nonfatal_stop_cleanup (gen : Nat → Json) (ev : Nat → LoopEvent)
    (N fuel : Nat) (hok : ∀ i, i < N → ev i = .ok)
    (hstop : ev N = .interrupt ∨ ev N = .sendError) (hfuel : N < fuel) :
    run_loop_from gen ev 0 fuel =
      some ⟨(List.range N).map gen, 1, 0⟩ := by
  have hstop' : stop_result (ev (0 + N)) = some ⟨[], 1, 0⟩ := by
    rw [Nat.zero_add]
    rcases hstop with h | h <;> rw [h] <;> rfl
  have h := run_loop_from_stop gen ev 1 0 N 0 fuel
    (fun j hj => by rw [Nat.zero_add]; exact hok j hj) hstop' hfuel
  rw [List.range_eq_range' N]
  exact h

/-- Witness for C6: two good iterations, then an interrupt — two sends,
one close, exit status 0. -/
theorem C6_nonfatal_stop_cleanup_witness :
    run_loop_from (fun _ => Json.null)
      (fun i => if i < 2 then LoopEvent.ok else LoopEvent.interrupt) 0 5 =
      some ⟨(List.range 2).map (fun _ => Json.null), 1, 0⟩ :=
  C6_nonfatal_stop_cleanup (fun _ => Json.null)
    (fun i => if i < 2 then LoopEvent.ok else LoopEvent.interrupt) 2 5
    (fun i hi => by simp [hi]) (Or.inl (by norm_num)) (by omega)

/-- C7: if the file-backed generator hits a fatal read failure at loop
iteration `N` (any read outcome `r` on which `generate_cycle` exits with
code `c`: missing file, parse error, or a schema error at a cycle
boundary raising `SystemExit c`), then the process exits with that
non-zero code, and `producer.close()` still runs (exactly once, via the
`finally` block) before the process ends. -/
theorem C7_fatal_read_still_closes (gen : Nat → Json) (ev : Nat → LoopEvent)
    (N fuel c : Nat) (r : ReadResult) (hok : ∀ i, i < N → ev i = .ok)
    (hread : generate_cycle r = .exits c) (hev : ev N = .genExit c)
    (hfuel : N < fuel) :
    run_loop_from gen ev 0 fuel =
      some ⟨(List.range N).map gen, 1, c⟩ ∧ 0 < c := by
  have hc : 0 < c := by
    rcases r with j | _ | _ | _
    · rcases j with _ | _ | _ | _ | xs | kvs <;>
        simp only [generate_cycle] at hread <;>
        first
        | exact CycleOutcome.noConfusion hread
        | (injection hread with h; omega)
    · injection hread with h; omega
    · injection hread with h; omega
    · injection hread with h; omega
  refine ⟨?_, hc⟩
  have hstop' : stop_result (ev (0 + N)) = some ⟨[], 1, c⟩ := by
    rw [Nat.zero_add, hev]; rfl
  have h := run_loop_from_stop gen ev 1 c N 0 fuel
    (fun j hj => by rw [Nat.zero_add]; exact hok j hj) hstop' hfuel
  rw [List.range_eq_range' N]
  exact h

/-- Witness for C7: one good iteration, then the generator hits a JSON
parse error (`sys.exit(2)`) — close still runs once and the process
exits with code 2. -/
theorem C7_fatal_read_still_closes_witness :
    run_loop_from (fun _ => Json.null)
      (fun i => if i < 1 then LoopEvent.ok else LoopEvent.genExit 2) 0 4 =
      some ⟨(List.range 1).map (fun _ => Json.null), 1, 2⟩ ∧ 0 < 2 :=
  C7_fatal_read_still_closes (fun _ => Json.null)
    (fun i => if i < 1 then LoopEvent.ok else LoopEvent.genExit 2) 1 4 2
    ReadResult.parseError (fun i hi => by simp [hi]) rfl (by norm_num)
    (by omega)

/-- C8: for every literal override record `R`, every "next" call on
`generate_custom_message` returns a value equal to `R`, forever: the
first `k` calls yield exactly `k` copies of `R` (every call yields — no
re-read and no fatal path — and the `n`-th yield is `R`). -/
theorem C8_literal_repeats (R : Json) (n k : Nat) (h : n < k) :
    (generate_custom_message_trace R k)[n]? = some R ∧
    (generate_custom_message_trace R k).length = k := by
  rw [generate_custom_message_trace_eq]
  exact ⟨by simp [List.getElem?_replicate, h], List.length_replicate k R⟩

/-- Witness for C8 at `R = "x"`, call index 1 of 3. -/
theorem C8_literal_repeats_witness :
    (generate_custom_message_trace (Json.str "x") 3)[1]? =
      some (Json.str "x") ∧
    (generate_custom_message_trace (Json.str "x") 3).length = 3 :=
  C8_literal_repeats (Json.str "x") 1 3 (by omega)

/-- C9: literal-override resolution from a set (non-empty) configuration
string always succeeds with no fatal path: if the string parses as JSON
and the result is a mapping, that mapping is used as-is; if JSON parsing
fails, the result is the one-key mapping `{"message": <raw string>}`;
in every case a value is produced. -/
theorem C9_literal_resolution (parse : String → Option Json) (s : String)
    (h : s ≠ "") :
    (∀ j, parse s = some j → j.isObj = true →
      get_custom_message parse (some s) = some j) ∧
    (parse s = none →
      get_custom_message parse (some s) =
        some (.obj [("message", .str s)])) ∧
    (get_custom_message parse (some s)).isSome = true := by
  have hbne : (s != "") = true := by simp [bne_iff_ne, h]
  refine ⟨?_, ?_, ?_⟩
  · intro j hj _
    simp only [get_custom_message]
    rw [if_pos hbne, hj]
  · intro hN
    simp only [get_custom_message]
    rw [if_pos hbne, hN]
  · simp only [get_custom_message]
    rw [if_pos hbne]
    cases hp : parse s <;> rfl

/-- Witness for C9 at the non-JSON string `"hello"`, which resolves to
the wrapped mapping. -/
theorem C9_literal_resolution_witness :
    (∀ j, json_loads_model "hello" = some j → j.isObj = true →
      get_custom_message json_loads_model (some "hello") = some j) ∧
    (json_loads_model "hello" = none →
      get_custom_message json_loads_model (some "hello") =
        some (.obj [("message", .str "hello")])) ∧
    (get_custom_message json_loads_model (some "hello")).isSome = true :=
  C9_literal_resolution json_loads_model "hello" (by decide)

/-- C10: if the literal-message configuration string parses as valid JSON
whose value `j` is truthy but not a mapping, `get_custom_message`
returns `j` unchanged, the producer selects the literal branch with `j`,
every "next" call yields `j`, and a delivery-loop run of `N` iterations
submits exactly `N` copies of `j` to the broker — so values handed to
`send` are not guaranteed to be string-keyed mappings. -/
theorem C10_nonmapping_passthrough (parse : String → Option Json)
    (s : String) (j : Json) (hs : s ≠ "") (hp : parse s = some j)
    (ht : j.truthy = true) (hobj : j.isObj = false) :
    get_custom_message parse (some s) = some j ∧
    choose_branch parse (some s) = SourceBranch.literal j ∧
    (∀ n k, n < k → (generate_custom_message_trace j k)[n]? = some j) ∧
    (∀ N fuel, N < fuel →
      run_loop_from (fun _ => j)
        (fun i => if i < N then LoopEvent.ok else LoopEvent.interrupt)
        0 fuel = some ⟨List.replicate N j, 1, 0⟩) := by
  have hbne : (s != "") = true := by simp [bne_iff_ne, hs]
  have hres : get_custom_message parse (some s) = some j := by
    simp only [get_custom_message]
    rw [if_pos hbne, hp]
  refine ⟨hres, ?_, ?_, ?_⟩
  · simp only [choose_branch, hres, ht, if_true]
  · intro n k hnk
    rw [generate_custom_message_trace_eq]
    simp [List.getElem?_replicate, hnk]
  · intro N fuel hNf
    have h := run_loop_from_stop (fun _ => j)
      (fun i => if i < N then LoopEvent.ok else LoopEvent.interrupt) 1 0
      N 0 fuel (fun i hi => by simp [hi])
      (by simp [stop_result]) hNf
    rw [h, List.map_const', List.length_range']

/-- Witness for C10 at the string `"[1, 2]"`, a truthy non-mapping JSON
array. -/
theorem C10_nonmapping_passthrough_witness :
    get_custom_message json_loads_model (some "[1, 2]") =
      some (Json.arr [Json.num 1, Json.num 2]) ∧
    choose_branch json_loads_model (some "[1, 2]") =
      SourceBranch.literal (Json.arr [Json.num 1, Json.num 2]) ∧
    (∀ n k, n < k →
      (generate_custom_message_trace
        (Json.arr [Json.num 1, Json.num 2]) k)[n]? =
        some (Json.arr [Json.num 1, Json.num 2])) ∧
    (∀ N fuel, N < fuel →
      run_loop_from (fun _ => Json.arr [Json.num 1, Json.num 2])
        (fun i => if i < N then LoopEvent.ok else LoopEvent.interrupt)
        0 fuel =
        some ⟨List.replicate N (Json.arr [Json.num 1, Json.num 2]), 1, 0⟩) :=
  C10_nonmapping_passthrough json_loads_model "[1, 2]"
    (Json.arr [Json.num 1, Json.num 2]) (by decide) rfl rfl rfl

end BuzzlineProducer
